import Mathlib

/-!
Verification of `monitor.py` (SSH login monitor).

The development shallowly embeds the program's core logic:

* the per-IP sliding-window failed-attempt tracker realized inline in
  `main` (append current time, prune entries older than
  `now - timedelta(minutes=WINDOW_MINUTES)`, take the length, compare with
  `THRESHOLD_ATTEMPTS`, clear the window on alert);
* the regex classification of log lines (`FAILED_RE` / `ACCEPTED_RE`,
  applied in that order with `continue` after a failed match);
* the Gemini enrichment call `analyze_with_gemini` (credential check,
  short-mode truncation, retry loop for 429/timeout with `attempt * 2`
  backoff, immediate fallback strings for other errors);
* the notifier `send_whatsapp` (credential check, single POST, `r.ok`);
* one polling iteration of the `tail_file` generator (readline, and on
  EOF the inode recheck that reopens the path and seeks to its end).

Timestamps are modelled as integers (seconds); `timedelta(minutes=w)`
becomes `windowSpan w = 60 * w`.
-/

/-- `timedelta(minutes=w)` in seconds. -/
def windowSpan (w : Int) : Int := 60 * w

/-- Default of `WINDOW_MINUTES = int(os.getenv("WINDOW_MINUTES", "5"))`. -/
def WINDOW_MINUTES : Int := 5

/-- Default of `THRESHOLD_ATTEMPTS = int(os.getenv("THRESHOLD_ATTEMPTS", "5"))`. -/
def THRESHOLD_ATTEMPTS : Nat := 5

/-- The failed-attempt update for one IP (spec name `onFailed`), as realized
by `main`: `attempts[ip].append(now)` followed by
`attempts[ip] = [t for t in attempts[ip] if t >= cutoff]` with
`cutoff = now - timedelta(minutes=WINDOW_MINUTES)`.  `span` is the window
length in seconds.  The returned list is the new window; its length is the
`count` the caller compares with the threshold. -/
def onFailed (prev : List Int) (t : Int) (span : Int) : List Int :=
  (prev ++ [t]).filter (fun x => decide (t - span ≤ x))

/-- Number of entries of `l` inside the closed interval `[t - span, t]`
(the quantity the spec says `onFailed` returns). -/
def countInWindow (l : List Int) (t span : Int) : Nat :=
  (l.filter (fun x => decide (t - span ≤ x) && decide (x ≤ t))).length

/-- The `attempts` mapping of `main` (`defaultdict(list)` keyed by IP),
as an insertion-ordered association list. -/
abbrev AttemptsMap := List (String × List Int)

/-- Read `attempts[ip]`: a missing key reads as `[]` (defaultdict). -/
def getA (m : AttemptsMap) (k : String) : List Int :=
  (m.lookup k).getD []

/-- Write `attempts[k] = v`: replace in place if present, else append the
key (Python dicts keep insertion position on re-assignment). -/
def setA : AttemptsMap → String → List Int → AttemptsMap
  | [], k, v => [(k, v)]
  | (k', v') :: rest, k, v =>
    if k' = k then (k, v) :: rest else (k', v') :: setA rest k v

/-- One failed-event update of `main` (lines 171-197 without the
notification I/O): append-prune-count, then if `count >= THRESHOLD_ATTEMPTS`
clear the IP's window (`attempts[ip] = []`) and signal the alert. -/
def stepFailed (span : Int) (threshold : Nat) (m : AttemptsMap) (ip : String)
    (now : Int) : AttemptsMap × Nat × Bool :=
  if threshold ≤ (onFailed (getA m ip) now span).length then
    (setA (setA m ip (onFailed (getA m ip) now span)) ip [],
     (onFailed (getA m ip) now span).length, true)
  else
    (setA m ip (onFailed (getA m ip) now span),
     (onFailed (getA m ip) now span).length, false)

/-- Fold `stepFailed` (with the default window and threshold) over a list of
event times for one IP, keeping only the resulting map. -/
def iterFailed (m : AttemptsMap) (ip : String) (ts : List Int) : AttemptsMap :=
  ts.foldl (fun acc t =>
    (stepFailed (windowSpan WINDOW_MINUTES) THRESHOLD_ATTEMPTS acc ip t).1) m

-- ------------------------------------------------------------------
-- Regex classification (FAILED_RE / ACCEPTED_RE, re.search semantics)
-- ------------------------------------------------------------------

/-- Match a literal; on success return the remaining characters. -/
def lit (pat : List Char) (cs : List Char) : Option (List Char) :=
  if pat.isPrefixOf cs then some (cs.drop pat.length) else none

/-- Greedy `\d+`: the maximal nonempty digit run and the remainder.
(Backtracking into a `\d+` that is followed by a non-digit literal can
never succeed, so the maximal run is exact.) -/
def digits1 (cs : List Char) : Option (List Char × List Char) :=
  let d := cs.takeWhile Char.isDigit
  if d.isEmpty then none else some (d, cs.drop d.length)

/-- Greedy match of `\d+\.\d+\.\d+\.\d+`, returning the captured text. -/
def matchIp (cs : List Char) : Option (List Char) :=
  match digits1 cs with
  | none => none
  | some (d1, r1) =>
    match r1 with
    | '.' :: r1' =>
      match digits1 r1' with
      | none => none
      | some (d2, r2) =>
        match r2 with
        | '.' :: r2' =>
          match digits1 r2' with
          | none => none
          | some (d3, r3) =>
            match r3 with
            | '.' :: r3' =>
              match digits1 r3' with
              | none => none
              | some (d4, _) =>
                some (d1 ++ '.' :: d2 ++ '.' :: d3 ++ '.' :: d4)
            | _ => none
        | _ => none
    | _ => none

/-- Match `(\S+) from (\d+\.\d+\.\d+\.\d+)` at the head of `cs`, returning
the two captures.  `\S+` is greedy; shrinking it cannot help because the
following literal starts with a space, so it is exactly the maximal
non-whitespace run.  (`Char.isWhitespace` stands for the ASCII whitespace
class of Python's `\S` — the log lines at issue are ASCII.) -/
def userFrom (cs : List Char) : Option (List Char × List Char) :=
  let u := cs.takeWhile (fun c => !c.isWhitespace)
  if u.isEmpty then none
  else
    match lit " from ".data (cs.drop u.length) with
    | none => none
    | some rest =>
      match matchIp rest with
      | none => none
      | some ip => some (u, ip)

/-- Match `FAILED_RE` anchored at the head of `cs`:
`Failed password for (?:invalid user )?(\S+) from (\d+\.\d+\.\d+\.\d+)`.
The optional group is tried first, and on failure of the rest the engine
backtracks to the variant without it. -/
def matchFailedAt (cs : List Char) : Option (String × String) :=
  match lit "Failed password for ".data cs with
  | none => none
  | some r =>
    match lit "invalid user ".data r with
    | some r2 =>
      match userFrom r2 with
      | some (u, ip) => some (⟨u⟩, ⟨ip⟩)
      | none =>
        match userFrom r with
        | some (u, ip) => some (⟨u⟩, ⟨ip⟩)
        | none => none
    | none =>
      match userFrom r with
      | some (u, ip) => some (⟨u⟩, ⟨ip⟩)
      | none => none

/-- Match `ACCEPTED_RE` anchored at the head of `cs`:
`Accepted (?:password|publickey) for (\S+) from (\d+\.\d+\.\d+\.\d+)`.
The two alternatives start with the same letter but diverge at the second,
so at most one of them can match at a given position. -/
def matchAcceptedAt (cs : List Char) : Option (String × String) :=
  match lit "Accepted ".data cs with
  | none => none
  | some r =>
    match (match lit "password".data r with
           | some r1 => some r1
           | none => lit "publickey".data r) with
    | none => none
    | some r1 =>
      match lit " for ".data r1 with
      | none => none
      | some r2 =>
        match userFrom r2 with
        | some (u, ip) => some (⟨u⟩, ⟨ip⟩)
        | none => none

/-- `re.search`: try every starting position left to right, first match
wins. -/
def searchAux (f : List Char → Option (String × String)) :
    List Char → Option (String × String)
  | [] => f []
  | c :: cs =>
    match f (c :: cs) with
    | some r => some r
    | none => searchAux f cs

/-- `FAILED_RE.search(line)`. -/
def searchFailed (cs : List Char) : Option (String × String) :=
  searchAux matchFailedAt cs

/-- `ACCEPTED_RE.search(line)`. -/
def searchAccepted (cs : List Char) : Option (String × String) :=
  searchAux matchAcceptedAt cs

-- ------------------------------------------------------------------
-- Orchestrator: one main-loop iteration for one line
-- ------------------------------------------------------------------

/-- The configuration the main loop reads from the environment. -/
structure Config where
  span : Int
  threshold : Nat
  notifyOnSuccess : Bool

/-- The default configuration of `monitor.py`. -/
def cfg0 : Config := ⟨windowSpan WINDOW_MINUTES, THRESHOLD_ATTEMPTS, true⟩

/-- A notification request handed to the WhatsApp sender by the main
loop: either the brute-force alert or the success message. -/
inductive Notif where
  | bruteForce : String → String → Nat → Notif
  | success : String → String → Notif
deriving DecidableEq

/-- One iteration of the `for line in tail` loop of `main` (lines
165-224): try `FAILED_RE.search` first (the failed branch ends in
`continue`), otherwise `ACCEPTED_RE.search` guarded by
`NOTIFY_ON_SUCCESS`; a line matching neither does nothing.  Returns the
updated `attempts` map and the notification sent, if any. -/
def processLine (cfg : Config) (m : AttemptsMap) (line : String) (now : Int) :
    AttemptsMap × Option Notif :=
  match searchFailed line.data with
  | some (user, ip) =>
    ((stepFailed cfg.span cfg.threshold m ip now).1,
     if (stepFailed cfg.span cfg.threshold m ip now).2.2 then
       some (Notif.bruteForce ip user (stepFailed cfg.span cfg.threshold m ip now).2.1)
     else none)
  | none =>
    match searchAccepted line.data with
    | some (user, ip) =>
      if cfg.notifyOnSuccess then (m, some (Notif.success user ip)) else (m, none)
    | none => (m, none)

-- ------------------------------------------------------------------
-- Gemini enrichment (analyze_with_gemini)
-- ------------------------------------------------------------------

/-- The parse-relevant shape of a 2xx Gemini response body:
either the JSON has no `candidates` key, or it has a list of candidates,
each abstracted to the extractable
`candidates[i]["content"]["parts"][0]["text"]` (`none` when that nested
access raises). -/
inductive GeminiBody where
  | noCandidatesField : GeminiBody
  | candidates : List (Option String) → GeminiBody
deriving DecidableEq

/-- Outcome of one `requests.post` to Gemini as the code observes it:
a 2xx response with a body, an `HTTPError` with a status code (from
`raise_for_status`), a timeout, or any other exception (which includes a
malformed body that `r.json()` fails to parse). -/
inductive GeminiOutcome where
  | ok : GeminiBody → GeminiOutcome
  | httpError : Nat → String → GeminiOutcome
  | timeout : GeminiOutcome
  | otherError : String → GeminiOutcome

/-- The body handling of `analyze_with_gemini` (lines 101-108):
`candidates` present and nonempty yields the stripped text or the
parse-failure fallback; otherwise the empty-response fallback. -/
def handleBody : GeminiBody → String
  | GeminiBody.noCandidatesField => "(AI error: empty response)"
  | GeminiBody.candidates [] => "(AI error: empty response)"
  | GeminiBody.candidates (some t :: _) => t.trim
  | GeminiBody.candidates (none :: _) => "(AI error: response parsing failed)"

/-- Python truthiness of `not GEMINI_API_KEY`: unset or empty. -/
def keyBlank : Option String → Bool
  | none => true
  | some s => s.isEmpty

/-- The short-mode prompt preparation (lines 84-91): in short mode a
prompt longer than 300 characters is cut to its first 300 characters plus
`"..."`; otherwise the prompt is sent unmodified. -/
def geminiPrompt (p : String) (short : Bool) : String :=
  if short then (if 300 < p.length then p.take 300 ++ "..." else p) else p

/-- The retry loop of `analyze_with_gemini` (`for attempt in
range(1, max_retries + 1)`), parametrised by the backend outcome of each
attempt.  Returns the text result, the list of `time.sleep` durations
(`attempt * 2` on 429 and on timeout), and the number of HTTP calls
performed.  `rem` is the number of attempts still allowed. -/
def geminiLoop (outs : Nat → GeminiOutcome) : Nat → Nat → String × List Nat × Nat
  | _, 0 => ("(AI error: request gagal setelah beberapa retry)", [], 0)
  | attempt, rem + 1 =>
    match outs attempt with
    | GeminiOutcome.ok body => (handleBody body, [], 1)
    | GeminiOutcome.httpError status msg =>
      if status = 429 then
        ((geminiLoop outs (attempt + 1) rem).1,
         attempt * 2 :: (geminiLoop outs (attempt + 1) rem).2.1,
         (geminiLoop outs (attempt + 1) rem).2.2 + 1)
      else ("(AI error: " ++ msg ++ ")", [], 1)
    | GeminiOutcome.timeout =>
      ((geminiLoop outs (attempt + 1) rem).1,
       attempt * 2 :: (geminiLoop outs (attempt + 1) rem).2.1,
       (geminiLoop outs (attempt + 1) rem).2.2 + 1)
    | GeminiOutcome.otherError msg => ("(AI error: " ++ msg ++ ")", [], 1)

/-- The observable result of one `analyze_with_gemini` call: the returned
text, the sleeps performed, the number of HTTP calls, and the prompt that
was sent (`none` when no call was attempted). -/
structure AnalyzeResult where
  text : String
  sleeps : List Nat
  calls : Nat
  sentPrompt : Option String
deriving DecidableEq

/-- `analyze_with_gemini(prompt_text, short)` (lines 74-130), with the
backend behaviour per attempt supplied as `outs`: blank credential returns
the fixed placeholder with no call; otherwise the prompt is prepared and
the retry loop runs with `max_retries = 3`. -/
def analyze_with_gemini (key : Option String) (promptText : String)
    (short : Bool) (outs : Nat → GeminiOutcome) : AnalyzeResult :=
  if keyBlank key then
    ⟨"(AI nonaktif: GEMINI_API_KEY tidak diset)", [], 0, none⟩
  else
    ⟨(geminiLoop outs 1 3).1, (geminiLoop outs 1 3).2.1,
     (geminiLoop outs 1 3).2.2, some (geminiPrompt promptText short)⟩

-- ------------------------------------------------------------------
-- WhatsApp notifier (send_whatsapp)
-- ------------------------------------------------------------------

/-- Outcome of the single `requests.post` to the Fonnte API: a response
with a status code, or an exception. -/
inductive TransportOutcome where
  | response : Nat → TransportOutcome
  | exception : String → TransportOutcome

/-- `send_whatsapp(message)` (lines 55-71), with the transport outcome
supplied: blank token or device returns `False` with no POST; otherwise
exactly one POST with `timeout=10` is made and the result is `r.ok`
(status < 400), or `False` if the POST raised.  The second component
lists the timeouts of the POSTs performed. -/
def send_whatsapp (token device : Option String) (outcome : TransportOutcome) :
    Bool × List Nat :=
  if keyBlank token || keyBlank device then (false, [])
  else
    match outcome with
    | TransportOutcome.response st => (decide (st < 400), [10])
    | TransportOutcome.exception _ => (false, [10])

-- ------------------------------------------------------------------
-- Line source (tail_file)
-- ------------------------------------------------------------------

/-- A snapshot of the filesystem as `tail_file` can observe it: the inode
currently at the watched path, and each inode's content as a list of
lines. -/
structure FS where
  pathIno : Nat
  content : Nat → List String

/-- The loop state of the `tail_file` generator: the inode its handle is
open on, the line offset of the handle, and the `inode` variable (`none`
until first assigned). -/
structure TailState where
  fd : Nat
  pos : Nat
  cachedIno : Option Nat
deriving DecidableEq

/-- One iteration of the `while True` loop of `tail_file` (lines
140-156): `readline` yields the next line of the open inode if one
exists; otherwise (after the sleep) the `inode` variable is filled from
`fstat` if unset and compared with `stat(path)`; a differing path inode
causes close-reopen-seek-to-end, and nothing else happens. -/
def tailStep (fs : FS) (s : TailState) : TailState × Option String :=
  match (fs.content s.fd)[s.pos]? with
  | some line => (⟨s.fd, s.pos + 1, s.cachedIno⟩, some line)
  | none =>
    if fs.pathIno ≠ s.cachedIno.getD s.fd then
      (⟨fs.pathIno, (fs.content fs.pathIno).length, some fs.pathIno⟩, none)
    else
      (⟨s.fd, s.pos, some (s.cachedIno.getD s.fd)⟩, none)

/-- Run `tailStep` over a sequence of filesystem snapshots (one per loop
iteration), collecting the yielded lines. -/
def tailRun : List FS → TailState → List String
  | [], _ => []
  | fs :: rest, s =>
    match tailStep fs s with
    | (s', some line) => line :: tailRun rest s'
    | (s', none) => tailRun rest s'

/-- The state after `tail_file`'s startup (`open` then `seek(0, 2)`,
`inode = None`). -/
def tailInit (fs : FS) : TailState :=
  ⟨fs.pathIno, (fs.content fs.pathIno).length, none⟩

/-- A filesystem whose path points at inode `ino` holding lines `ls`. -/
def staticFS (ino : Nat) (ls : List String) : FS :=
  ⟨ino, fun i => if i = ino then ls else []⟩

/-- Before rotation: inode 1 at the path with one already-read line. -/
def fsOld : FS := ⟨1, fun i => if i = 1 then ["old"] else []⟩

/-- After rotation: inode 2 at the path, and the new file already holds
the line `"x"` written after the swap; the old inode 1 still holds its
line. -/
def fsRot : FS :=
  ⟨2, fun i => if i = 2 then ["x"] else if i = 1 then ["old"] else []⟩

/-- The tailer state just after the rotation was detected and the path
reopened: handle on inode 2, positioned at its end. -/
def sRot1 : TailState := ⟨2, 1, some 2⟩

/-- In-place truncation (copytruncate): the path still holds inode 1 but
its content shrank to nothing. -/
def fsShrunk : FS := ⟨1, fun _ => []⟩

/-- After the truncation a new line `"b"` is written at the start of the
same inode. -/
def fsShrunkB : FS := ⟨1, fun i => if i = 1 then ["b"] else []⟩

/-- The tailer state while it was at the end of the one-line inode 1. -/
def sShrunk : TailState := ⟨1, 1, some 1⟩

/-- A 301-character prompt, for exercising the short-mode truncation. -/
def longPrompt : String := String.mk (List.replicate 301 'a')

-- ------------------------------------------------------------------
-- helper lemmas
-- ------------------------------------------------------------------

theorem onFailed_keep_all (prev : List Int) (t span : Int)
    (h : ∀ x ∈ prev, t - span ≤ x) (h0 : t - span ≤ t) :
    onFailed prev t span = prev ++ [t] := by
  unfold onFailed
  rw [List.filter_eq_self]
  intro x hx
  rcases List.mem_append.mp hx with hx | hx
  · exact decide_eq_true (h x hx)
  · simp only [List.mem_singleton] at hx
    subst hx
    exact decide_eq_true h0

theorem lookup_setA_self (m : AttemptsMap) (k : String) (v : List Int) :
    (setA m k v).lookup k = some v := by
  induction m with
  | nil => simp [setA, List.lookup]
  | cons p rest ih =>
    obtain ⟨k', v'⟩ := p
    by_cases h : k' = k
    · simp [setA, h, List.lookup]
    · have hbeq : (k == k') = false := by
        simp [beq_iff_eq]
        intro hk
        exact h hk.symm
      simp [setA, h, List.lookup, hbeq, ih]

theorem getA_setA_self (m : AttemptsMap) (k : String) (v : List Int) :
    getA (setA m k v) k = v := by
  unfold getA
  rw [lookup_setA_self]
  rfl

theorem getA_setA_ne (m : AttemptsMap) (k k' : String) (v : List Int)
    (h : k' ≠ k) :
    getA (setA m k v) k' = getA m k' := by
  induction m with
  | nil =>
    have hbeq : (k' == k) = false := by
      simp [beq_iff_eq, h]
    simp [setA, getA, List.lookup, hbeq]
  | cons p rest ih =>
    obtain ⟨k₀, v₀⟩ := p
    by_cases hk : k₀ = k
    · subst hk
      have hbeq : (k' == k₀) = false := by
        simp [beq_iff_eq, h]
      simp [setA, getA, List.lookup, hbeq]
    · by_cases hk' : k' = k₀
      · subst hk'
        simp [setA, hk, getA, List.lookup]
      · have hbeq : (k' == k₀) = false := by
          simp [beq_iff_eq, hk']
        simp [setA, hk, getA, List.lookup, hbeq] at ih ⊢
        exact ih

theorem geminiLoop_calls_le (outs : Nat → GeminiOutcome) :
    ∀ (rem attempt : Nat), (geminiLoop outs attempt rem).2.2 ≤ rem := by
  intro rem
  induction rem with
  | zero =>
    intro attempt
    simp [geminiLoop]
  | succ n ih =>
    intro attempt
    cases h : outs attempt with
    | ok body =>
      simp [geminiLoop, h]
    | httpError status msg =>
      by_cases h429 : status = 429
      · have hrec := ih (attempt + 1)
        simp only [geminiLoop, h, h429, if_pos]
        omega
      · simp [geminiLoop, h, h429]
    | timeout =>
      have hrec := ih (attempt + 1)
      simp only [geminiLoop, h]
      omega
    | otherError msg =>
      simp [geminiLoop, h]

theorem tailRun_static_fix (ino : Nat) (ls : List String) (pos : Nat)
    (hpos : ls.length ≤ pos) :
    ∀ (k : Nat),
      tailRun (List.replicate k (staticFS ino ls)) ⟨ino, pos, some ino⟩ = [] := by
  have hstep : tailStep (staticFS ino ls) ⟨ino, pos, some ino⟩ =
      (⟨ino, pos, some ino⟩, none) := by
    simp [tailStep, staticFS, List.getElem?_eq_none hpos]
  intro k
  induction k with
  | zero => rfl
  | succ n ih =>
    rw [List.replicate_succ]
    simp only [tailRun]
    rw [hstep]
    exact ih

theorem tailRun_static_append (ino : Nat) :
    ∀ (new old : List String) (k : Nat),
      tailRun (List.replicate (new.length + k) (staticFS ino (old ++ new)))
        ⟨ino, old.length, some ino⟩ = new := by
  intro new
  induction new with
  | nil =>
    intro old k
    simp only [List.append_nil, List.length_nil, Nat.zero_add]
    exact tailRun_static_fix ino old old.length le_rfl k
  | cons x xs ih =>
    intro old k
    have hcnt : (x :: xs).length + k = (xs.length + k) + 1 := by
      simp only [List.length_cons]
      omega
    rw [hcnt, List.replicate_succ]
    have hget : ((staticFS ino (old ++ x :: xs)).content ino)[old.length]? = some x := by
      have hc : (staticFS ino (old ++ x :: xs)).content ino = old ++ x :: xs := by
        simp [staticFS]
      rw [hc, List.getElem?_append_right (le_refl old.length)]
      simp
    have hstep : tailStep (staticFS ino (old ++ x :: xs)) ⟨ino, old.length, some ino⟩ =
        (⟨ino, old.length + 1, some ino⟩, some x) := by
      simp [tailStep, hget]
    simp only [tailRun]
    rw [hstep]
    show x :: tailRun (List.replicate (xs.length + k) (staticFS ino (old ++ x :: xs)))
        ⟨ino, old.length + 1, some ino⟩ = x :: xs
    have hre : old ++ x :: xs = (old ++ [x]) ++ xs := by simp
    have hlen : old.length + 1 = (old ++ [x]).length := by simp
    rw [hre, hlen, ih (old ++ [x]) k]

-- ------------------------------------------------------------------
-- C1 / C10
-- ------------------------------------------------------------------

/-- C1 (counterexample): the claim says the count returned by the
append-prune-len step equals the number of recorded timestamps inside the
closed interval `[t - WINDOW, t]` regardless of arrival-order
irregularities.  With the window `[400]` already recorded and a call at
`t = 50` (an out-of-order arrival: the recorded `400` lies after `t`),
the code keeps `400` (the filter has no upper bound) and returns `2`,
while the interval `[50 - 300, 50]` contains only `50`. -/
theorem c1_counterexample :
    (onFailed [400] 50 (windowSpan WINDOW_MINUTES)).length ≠
      countInWindow ([400] ++ [50]) 50 (windowSpan WINDOW_MINUTES) := by
  decide

/-- C1 (amended): when every previously recorded timestamp is `≤ t`
(in-order arrivals), the count returned by the append-prune-len step equals
the number of recorded timestamps (the old window plus the just-appended
`t`) inside the closed interval `[t - span, t]`. -/
theorem c1_window_count_amended (prev : List Int) (t span : Int)
    (h : ∀ x ∈ prev, x ≤ t) :
    (onFailed prev t span).length = countInWindow (prev ++ [t]) t span := by
  unfold onFailed countInWindow
  have hcong : ∀ x ∈ prev ++ [t],
      (decide (t - span ≤ x)) = (decide (t - span ≤ x) && decide (x ≤ t)) := by
    intro x hx
    have hxt : x ≤ t := by
      rcases List.mem_append.mp hx with hx | hx
      · exact h x hx
      · simp only [List.mem_singleton] at hx
        exact hx.le
    rw [decide_eq_true hxt, Bool.and_true]
  rw [List.filter_congr hcong]

/-- C1 (witness): an in-order instance of the amended statement. -/
theorem c1_window_count_amended_witness :
    (onFailed [0, 100] 200 300).length =
      countInWindow ([0, 100] ++ [200]) 200 300 :=
  c1_window_count_amended [0, 100] 200 300 (by decide)

/-- C10: every failed-attempt update returns a count of at least 1: the
just-appended timestamp `t` satisfies `t - 60 * w ≤ t` whenever
`WINDOW_MINUTES = w ≥ 0`, so the pruning filter never removes it. -/
theorem c10_count_positive (prev : List Int) (t : Int) (w : Int)
    (hw : 0 ≤ w) :
    1 ≤ (onFailed prev t (windowSpan w)).length := by
  have ht : t ∈ onFailed prev t (windowSpan w) := by
    unfold onFailed
    refine List.mem_filter.mpr ⟨by simp, ?he⟩
    refine decide_eq_true ?hle
    unfold windowSpan
    omega
  have hne : onFailed prev t (windowSpan w) ≠ [] :=
    List.ne_nil_of_mem ht
  exact List.length_pos.mpr hne

/-- C10 (witness). -/
theorem c10_count_positive_witness :
    1 ≤ (onFailed [] 0 (windowSpan 5)).length :=
  c10_count_positive [] 0 5 (by decide)

-- ------------------------------------------------------------------
-- C2: threshold edge
-- ------------------------------------------------------------------

/-- C2: with the default `THRESHOLD_ATTEMPTS = 5` and five in-order failed
events from one IP all inside the window (`t5 ≤ t1 + windowSpan 5`),
the 4th update reports count 4 and no alert, the 5th reports count 5 and
alerts, immediately afterwards the IP's key is still present and maps to
the empty window (`attempts[ip] = []`, cleared rather than deleted), and
a 6th failed attempt then counts from zero again (count 1). -/
theorem c2_threshold_edge (ip : String) (t1 t2 t3 t4 t5 t6 : Int)
    (h12 : t1 ≤ t2) (h23 : t2 ≤ t3) (h34 : t3 ≤ t4) (h45 : t4 ≤ t5)
    (hw : t5 ≤ t1 + windowSpan WINDOW_MINUTES) :
    (stepFailed (windowSpan WINDOW_MINUTES) THRESHOLD_ATTEMPTS
        (iterFailed [] ip [t1, t2, t3]) ip t4).2 = (4, false)
    ∧ (stepFailed (windowSpan WINDOW_MINUTES) THRESHOLD_ATTEMPTS
        (iterFailed [] ip [t1, t2, t3, t4]) ip t5).2 = (5, true)
    ∧ ((stepFailed (windowSpan WINDOW_MINUTES) THRESHOLD_ATTEMPTS
        (iterFailed [] ip [t1, t2, t3, t4]) ip t5).1).lookup ip = some []
    ∧ (stepFailed (windowSpan WINDOW_MINUTES) THRESHOLD_ATTEMPTS
        (stepFailed (windowSpan WINDOW_MINUTES) THRESHOLD_ATTEMPTS
          (iterFailed [] ip [t1, t2, t3, t4]) ip t5).1 ip t6).2.1 = 1 := by
  have hW : windowSpan WINDOW_MINUTES = 300 := rfl
  have hT : THRESHOLD_ATTEMPTS = 5 := rfl
  rw [hW] at hw
  have w1 : onFailed [] t1 300 = [t1] := by
    have h := onFailed_keep_all [] t1 300 (by intro x hx; simp at hx) (by omega)
    simpa using h
  have s1 : stepFailed 300 5 [] ip t1 = ([(ip, [t1])], 1, false) := by
    unfold stepFailed
    rw [show getA ([] : AttemptsMap) ip = [] from rfl, w1]
    norm_num [setA]
  have g1 : getA [(ip, [t1])] ip = [t1] := by
    simp [getA, List.lookup]
  have w2 : onFailed [t1] t2 300 = [t1, t2] := by
    have h := onFailed_keep_all [t1] t2 300
      (by intro x hx; simp at hx; omega) (by omega)
    simpa using h
  have s2 : stepFailed 300 5 [(ip, [t1])] ip t2 = ([(ip, [t1, t2])], 2, false) := by
    unfold stepFailed
    rw [g1, w2]
    norm_num [setA]
  have g2 : getA [(ip, [t1, t2])] ip = [t1, t2] := by
    simp [getA, List.lookup]
  have w3 : onFailed [t1, t2] t3 300 = [t1, t2, t3] := by
    have h := onFailed_keep_all [t1, t2] t3 300
      (by intro x hx; simp at hx; omega) (by omega)
    simpa using h
  have s3 : stepFailed 300 5 [(ip, [t1, t2])] ip t3 =
      ([(ip, [t1, t2, t3])], 3, false) := by
    unfold stepFailed
    rw [g2, w3]
    norm_num [setA]
  have g3 : getA [(ip, [t1, t2, t3])] ip = [t1, t2, t3] := by
    simp [getA, List.lookup]
  have w4 : onFailed [t1, t2, t3] t4 300 = [t1, t2, t3, t4] := by
    have h := onFailed_keep_all [t1, t2, t3] t4 300
      (by intro x hx; simp at hx; omega) (by omega)
    simpa using h
  have s4 : stepFailed 300 5 [(ip, [t1, t2, t3])] ip t4 =
      ([(ip, [t1, t2, t3, t4])], 4, false) := by
    unfold stepFailed
    rw [g3, w4]
    norm_num [setA]
  have g4 : getA [(ip, [t1, t2, t3, t4])] ip = [t1, t2, t3, t4] := by
    simp [getA, List.lookup]
  have w5 : onFailed [t1, t2, t3, t4] t5 300 = [t1, t2, t3, t4, t5] := by
    have h := onFailed_keep_all [t1, t2, t3, t4] t5 300
      (by intro x hx; simp at hx; omega) (by omega)
    simpa using h
  have s5 : stepFailed 300 5 [(ip, [t1, t2, t3, t4])] ip t5 =
      ([(ip, [])], 5, true) := by
    unfold stepFailed
    rw [g4, w5]
    norm_num [setA]
  have g5 : getA [(ip, [])] ip = [] := by
    simp [getA, List.lookup]
  have w6 : onFailed [] t6 300 = [t6] := by
    have h := onFailed_keep_all [] t6 300 (by intro x hx; simp at hx) (by omega)
    simpa using h
  have s6 : stepFailed 300 5 [(ip, [])] ip t6 = ([(ip, [t6])], 1, false) := by
    unfold stepFailed
    rw [g5, w6]
    norm_num [setA]
  have i3 : iterFailed [] ip [t1, t2, t3] = [(ip, [t1, t2, t3])] := by
    simp only [iterFailed, List.foldl, hW, hT, s1, s2, s3]
  have i4 : iterFailed [] ip [t1, t2, t3, t4] = [(ip, [t1, t2, t3, t4])] := by
    simp only [iterFailed, List.foldl, hW, hT, s1, s2, s3, s4]
  refine ⟨?p4, ?p5, ?pclear, ?pnext⟩
  · rw [hW, hT, i3, s4]
  · rw [hW, hT, i4, s5]
  · rw [hW, hT, i4, s5]
    simp [List.lookup]
  · rw [hW, hT, i4, s5]
    rw [s6]

/-- C2 (witness): a concrete burst of five failed attempts from
`10.0.0.5` one minute apart, then a sixth attempt. -/
theorem c2_threshold_edge_witness :
    (stepFailed (windowSpan WINDOW_MINUTES) THRESHOLD_ATTEMPTS
        (iterFailed [] "10.0.0.5" [0, 60, 120]) "10.0.0.5" 180).2 = (4, false)
    ∧ (stepFailed (windowSpan WINDOW_MINUTES) THRESHOLD_ATTEMPTS
        (iterFailed [] "10.0.0.5" [0, 60, 120, 180]) "10.0.0.5" 240).2 = (5, true)
    ∧ ((stepFailed (windowSpan WINDOW_MINUTES) THRESHOLD_ATTEMPTS
        (iterFailed [] "10.0.0.5" [0, 60, 120, 180]) "10.0.0.5" 240).1).lookup
          "10.0.0.5" = some []
    ∧ (stepFailed (windowSpan WINDOW_MINUTES) THRESHOLD_ATTEMPTS
        (stepFailed (windowSpan WINDOW_MINUTES) THRESHOLD_ATTEMPTS
          (iterFailed [] "10.0.0.5" [0, 60, 120, 180]) "10.0.0.5" 240).1
        "10.0.0.5" 600).2.1 = 1 :=
  c2_threshold_edge "10.0.0.5" 0 60 120 180 240 600
    (by decide) (by decide) (by decide) (by decide) (by decide)

-- ------------------------------------------------------------------
-- C3 / C4: enrichment retry policy and totality
-- ------------------------------------------------------------------

/-- C3: with a configured credential, only HTTP 429 and timeouts are
retried (up to 3 attempts, sleeping `attempt * 2` seconds, so the waits
are 2, 4, 6 and the wait before attempt 2 is at least the wait before
attempt 1); any other HTTP error, any unexpected exception path, and a
malformed or empty response body return immediately after a single call
with an `(AI error: ...)` string; three retryable failures return the
fallback string instead of an exception; a 429-429-success run returns
the stripped text of the third response. -/
theorem c3_retry_policy (key : Option String) (hk : keyBlank key = false)
    (p : String) (sh : Bool) :
    (∀ (outs : Nat → GeminiOutcome) (st : Nat) (msg : String), st ≠ 429 →
        outs 1 = GeminiOutcome.httpError st msg →
        analyze_with_gemini key p sh outs =
          ⟨"(AI error: " ++ msg ++ ")", [], 1, some (geminiPrompt p sh)⟩)
    ∧ (∀ (outs : Nat → GeminiOutcome) (body : GeminiBody),
        outs 1 = GeminiOutcome.ok body →
        analyze_with_gemini key p sh outs =
          ⟨handleBody body, [], 1, some (geminiPrompt p sh)⟩)
    ∧ (∀ (outs : Nat → GeminiOutcome) (msg : String),
        outs 1 = GeminiOutcome.otherError msg →
        analyze_with_gemini key p sh outs =
          ⟨"(AI error: " ++ msg ++ ")", [], 1, some (geminiPrompt p sh)⟩)
    ∧ handleBody GeminiBody.noCandidatesField = "(AI error: empty response)"
    ∧ handleBody (GeminiBody.candidates []) = "(AI error: empty response)"
    ∧ handleBody (GeminiBody.candidates [none]) = "(AI error: response parsing failed)"
    ∧ (∀ (outs : Nat → GeminiOutcome) (m1 m2 m3 : String),
        outs 1 = GeminiOutcome.httpError 429 m1 →
        outs 2 = GeminiOutcome.httpError 429 m2 →
        outs 3 = GeminiOutcome.httpError 429 m3 →
        analyze_with_gemini key p sh outs =
          ⟨"(AI error: request gagal setelah beberapa retry)", [2, 4, 6], 3,
           some (geminiPrompt p sh)⟩)
    ∧ (∀ (outs : Nat → GeminiOutcome),
        outs 1 = GeminiOutcome.timeout → outs 2 = GeminiOutcome.timeout →
        outs 3 = GeminiOutcome.timeout →
        analyze_with_gemini key p sh outs =
          ⟨"(AI error: request gagal setelah beberapa retry)", [2, 4, 6], 3,
           some (geminiPrompt p sh)⟩)
    ∧ (∀ (outs : Nat → GeminiOutcome) (m1 m2 : String) (t : String),
        outs 1 = GeminiOutcome.httpError 429 m1 →
        outs 2 = GeminiOutcome.httpError 429 m2 →
        outs 3 = GeminiOutcome.ok (GeminiBody.candidates [some t]) →
        analyze_with_gemini key p sh outs = ⟨t.trim, [2, 4], 3, some (geminiPrompt p sh)⟩
        ∧ List.Chain' (fun a b => a ≤ b) (analyze_with_gemini key p sh outs).sleeps)
    ∧ (∀ (outs : Nat → GeminiOutcome),
        (analyze_with_gemini key p sh outs).calls ≤ 3) := by
  have hun : ∀ (outs : Nat → GeminiOutcome),
      analyze_with_gemini key p sh outs =
        ⟨(geminiLoop outs 1 3).1, (geminiLoop outs 1 3).2.1,
         (geminiLoop outs 1 3).2.2, some (geminiPrompt p sh)⟩ := by
    intro outs
    simp [analyze_with_gemini, hk]
  refine ⟨?h1, ?h2, ?h3, rfl, rfl, rfl, ?h4, ?h5, ?h6, ?h7⟩
  · intro outs st msg hst hout
    rw [hun outs]
    have hl : geminiLoop outs 1 3 = ("(AI error: " ++ msg ++ ")", [], 1) := by
      rw [show (3 : Nat) = 0 + 1 + 1 + 1 from rfl]
      simp only [geminiLoop, hout]
      simp [hst]
    rw [hl]
  · intro outs body hout
    rw [hun outs]
    have hl : geminiLoop outs 1 3 = (handleBody body, [], 1) := by
      rw [show (3 : Nat) = 0 + 1 + 1 + 1 from rfl]
      simp only [geminiLoop, hout]
    rw [hl]
  · intro outs msg hout
    rw [hun outs]
    have hl : geminiLoop outs 1 3 = ("(AI error: " ++ msg ++ ")", [], 1) := by
      rw [show (3 : Nat) = 0 + 1 + 1 + 1 from rfl]
      simp only [geminiLoop, hout]
    rw [hl]
  · intro outs m1 m2 m3 h1 h2 h3
    rw [hun outs]
    have hl : geminiLoop outs 1 3 =
        ("(AI error: request gagal setelah beberapa retry)", [2, 4, 6], 3) := by
      rw [show (3 : Nat) = 0 + 1 + 1 + 1 from rfl]
      simp only [geminiLoop, h1, h2, h3]
      norm_num
    rw [hl]
  · intro outs h1 h2 h3
    rw [hun outs]
    have hl : geminiLoop outs 1 3 =
        ("(AI error: request gagal setelah beberapa retry)", [2, 4, 6], 3) := by
      rw [show (3 : Nat) = 0 + 1 + 1 + 1 from rfl]
      simp only [geminiLoop, h1, h2, h3]
    rw [hl]
  · intro outs m1 m2 t h1 h2 h3
    have hl : geminiLoop outs 1 3 = (t.trim, [2, 4], 3) := by
      rw [show (3 : Nat) = 0 + 1 + 1 + 1 from rfl]
      simp only [geminiLoop, h1, h2, h3]
      norm_num [handleBody]
    constructor
    · rw [hun outs, hl]
    · rw [hun outs]
      rw [show (⟨(geminiLoop outs 1 3).1, (geminiLoop outs 1 3).2.1,
          (geminiLoop outs 1 3).2.2, some (geminiPrompt p sh)⟩ : AnalyzeResult).sleeps
          = (geminiLoop outs 1 3).2.1 from rfl, hl]
      show List.Chain' (fun a b => a ≤ b) [2, 4]
      norm_num [List.chain'_cons]
  · intro outs
    rw [hun outs]
    exact geminiLoop_calls_le outs 3 1

/-- C3 (witness): concrete backend behaviours exercising the policy. -/
theorem c3_retry_policy_witness :
    analyze_with_gemini (some "k") "prompt" false
        (fun _ => GeminiOutcome.httpError 500 "500 Server Error") =
      ⟨"(AI error: " ++ "500 Server Error" ++ ")", [], 1,
       some (geminiPrompt "prompt" false)⟩
    ∧ analyze_with_gemini (some "k") "prompt" false
        (fun _ => GeminiOutcome.httpError 429 "429 Too Many Requests") =
      ⟨"(AI error: request gagal setelah beberapa retry)", [2, 4, 6], 3,
       some (geminiPrompt "prompt" false)⟩
    ∧ analyze_with_gemini (some "k") "prompt" false
        (fun n => if n ≤ 2 then GeminiOutcome.httpError 429 "429"
                  else GeminiOutcome.ok (GeminiBody.candidates [some " ok "])) =
      ⟨(" ok " : String).trim, [2, 4], 3, some (geminiPrompt "prompt" false)⟩ := by
  refine ⟨?w1, ?w2, ?w3⟩
  · exact (c3_retry_policy (some "k") (by decide) "prompt" false).1
      (fun _ => GeminiOutcome.httpError 500 "500 Server Error")
      500 "500 Server Error" (by decide) rfl
  · exact (c3_retry_policy (some "k") (by decide) "prompt" false).2.2.2.2.2.2.1
      (fun _ => GeminiOutcome.httpError 429 "429 Too Many Requests")
      "429 Too Many Requests" "429 Too Many Requests" "429 Too Many Requests"
      rfl rfl rfl
  · exact ((c3_retry_policy (some "k") (by decide) "prompt" false).2.2.2.2.2.2.2.2.1
      (fun n => if n ≤ 2 then GeminiOutcome.httpError 429 "429"
                else GeminiOutcome.ok (GeminiBody.candidates [some " ok "]))
      "429" "429" " ok " rfl rfl rfl).1

/-- C4: the enricher is total at its interface: it is a function into
`AnalyzeResult` (every branch of the source returns a string; every
exception is caught), an unset or empty `GEMINI_API_KEY` returns the
fixed placeholder immediately with zero HTTP calls and no prompt sent,
and in every case at most `max_retries = 3` calls are made. -/
theorem c4_enricher_total (p : String) (sh : Bool) (outs : Nat → GeminiOutcome) :
    analyze_with_gemini none p sh outs =
      ⟨"(AI nonaktif: GEMINI_API_KEY tidak diset)", [], 0, none⟩
    ∧ analyze_with_gemini (some "") p sh outs =
      ⟨"(AI nonaktif: GEMINI_API_KEY tidak diset)", [], 0, none⟩
    ∧ ∀ (key : Option String), (analyze_with_gemini key p sh outs).calls ≤ 3 := by
  refine ⟨rfl, rfl, ?hc⟩
  intro key
  by_cases hk : keyBlank key = true
  · simp [analyze_with_gemini, hk]
  · have hk' : keyBlank key = false := by
      revert hk
      cases keyBlank key <;> simp
    simp only [analyze_with_gemini, hk', Bool.false_eq_true, if_false]
    exact geminiLoop_calls_le outs 3 1

-- ------------------------------------------------------------------
-- C5: log rotation behaviour of tail_file
-- ------------------------------------------------------------------

/-- C5 (counterexample): the claim says every line written to the new
file after the swap is eventually yielded, and that rotation is detected
by identity change or by the file having shrunk.  Both fail.  Starting
from the tailer positioned at the end of the old one-line file
(`tailInit fsOld`), the snapshots `fsRot` show inode 2 at the path with
the post-swap line `"x"` already present: the run yields nothing, and the
post-reopen state `sRot1` is a fixpoint of `tailStep` on `fsRot`, so
`"x"` is never yielded (the reopen seeks to the end of the new file).
Moreover an in-place truncation (`fsShrunk`, same inode, content gone) is
not detected — the state is unchanged — and a line `"b"` then written to
the shrunken file (`fsShrunkB`) is also never yielded. -/
theorem c5_counterexample :
    tailRun [fsRot, fsRot, fsRot] (tailInit fsOld) = []
    ∧ tailStep fsRot sRot1 = (sRot1, none)
    ∧ tailStep fsShrunk sShrunk = (sShrunk, none)
    ∧ tailStep fsShrunkB sShrunk = (sShrunk, none) := by
  refine ⟨rfl, ?f1, ?f2, ?f3⟩ <;> decide

/-- C5 (amended): rotation is detected only by a change of the path's
on-disk identity at a poll recheck (a shrunken file with unchanged inode
causes no state change at all); on detection the stale handle is dropped
and the path is reopened positioned at the end of the new file, so lines
already in the new file at detection time are skipped; and once the
tailer sits at the end of the current file, lines appended afterwards are
each yielded exactly once, in order. -/
theorem c5_rotation_amended :
    (∀ (fs : FS) (s : TailState), (fs.content s.fd)[s.pos]? = none →
        fs.pathIno ≠ s.cachedIno.getD s.fd →
        tailStep fs s =
          (⟨fs.pathIno, (fs.content fs.pathIno).length, some fs.pathIno⟩, none))
    ∧ (∀ (fs : FS) (s : TailState), (fs.content s.fd)[s.pos]? = none →
        fs.pathIno = s.cachedIno.getD s.fd →
        tailStep fs s = (⟨s.fd, s.pos, some (s.cachedIno.getD s.fd)⟩, none))
    ∧ (∀ (ino : Nat) (old new : List String) (k : Nat),
        tailRun (List.replicate (new.length + k) (staticFS ino (old ++ new)))
          ⟨ino, old.length, some ino⟩ = new) := by
  refine ⟨?hrot, ?hsame, ?happ⟩
  · intro fs s h hne
    unfold tailStep
    rw [h, if_pos hne]
  · intro fs s h heq
    unfold tailStep
    rw [h, if_neg (fun hc => hc heq)]
  · intro ino old new k
    exact tailRun_static_append ino new old k

/-- C5 (amended, witness): the rotation reopen on the concrete trace, the
no-op on an unchanged inode, and exactly-once delivery of two appended
lines. -/
theorem c5_rotation_amended_witness :
    tailStep fsRot (tailInit fsOld) = (sRot1, none)
    ∧ tailStep (staticFS 3 ["l1"]) ⟨3, 1, some 3⟩ = (⟨3, 1, some 3⟩, none)
    ∧ tailRun (List.replicate 4 (staticFS 7 (["a"] ++ ["b", "c"])))
        ⟨7, 1, some 7⟩ = ["b", "c"] := by
  refine ⟨?w1, ?w2, ?w3⟩
  · exact c5_rotation_amended.1 fsRot (tailInit fsOld) (by decide) (by decide)
  · exact c5_rotation_amended.2.1 (staticFS 3 ["l1"]) ⟨3, 1, some 3⟩
      (by decide) (by decide)
  · exact c5_rotation_amended.2.2 7 ["a"] ["b", "c"] 2

-- ------------------------------------------------------------------
-- C6 / C9: classification order and per-IP independence
-- ------------------------------------------------------------------

/-- C6: the main loop tries `FAILED_RE` first and `continue`s on a hit,
so a line matching the failed pattern takes the failed path regardless of
whether the accepted pattern also matches; a line matching neither
pattern produces no notification and leaves the attempts map exactly as
it was. -/
theorem c6_classification_order (cfg : Config) (m : AttemptsMap)
    (line : String) (now : Int) :
    (∀ (u ip : String), searchFailed line.data = some (u, ip) →
        processLine cfg m line now =
          ((stepFailed cfg.span cfg.threshold m ip now).1,
           if (stepFailed cfg.span cfg.threshold m ip now).2.2 then
             some (Notif.bruteForce ip u (stepFailed cfg.span cfg.threshold m ip now).2.1)
           else none))
    ∧ (searchFailed line.data = none → searchAccepted line.data = none →
        processLine cfg m line now = (m, none)) := by
  constructor
  · intro u ip h
    unfold processLine
    rw [h]
  · intro h1 h2
    unfold processLine
    rw [h1, h2]

/-- C6 (witness): a line containing both patterns takes the failed path
(and does match `ACCEPTED_RE` too); a line matching neither is a no-op. -/
theorem c6_classification_order_witness :
    searchAccepted ("Failed password for b from 2.2.2.2 Accepted password for b from 2.2.2.2").data
      = some ("b", "2.2.2.2")
    ∧ processLine cfg0 []
        "Failed password for b from 2.2.2.2 Accepted password for b from 2.2.2.2" 0 =
        ((stepFailed cfg0.span cfg0.threshold [] "2.2.2.2" 0).1,
         if (stepFailed cfg0.span cfg0.threshold [] "2.2.2.2" 0).2.2 then
           some (Notif.bruteForce "2.2.2.2" "b"
             (stepFailed cfg0.span cfg0.threshold [] "2.2.2.2" 0).2.1)
         else none)
    ∧ processLine cfg0 [] "pam_unix session opened for user root" 0 = ([], none) := by
  refine ⟨by decide, ?w1, ?w2⟩
  · exact (c6_classification_order cfg0 []
      "Failed password for b from 2.2.2.2 Accepted password for b from 2.2.2.2" 0).1
      "b" "2.2.2.2" (by decide)
  · exact (c6_classification_order cfg0 [] "pam_unix session opened for user root" 0).2
      (by decide) (by decide)

/-- C9: a failed attempt from IP `a` changes at most the entry of `a`:
every other IP's window (hence its count) reads unchanged; and any line
that does not match the failed pattern — in particular a successful
login — leaves the attempts map untouched. -/
theorem c9_ip_independence (cfg : Config) (m : AttemptsMap) (line : String)
    (now : Int) :
    (∀ (u a b : String), searchFailed line.data = some (u, a) → b ≠ a →
        getA (processLine cfg m line now).1 b = getA m b)
    ∧ (searchFailed line.data = none → (processLine cfg m line now).1 = m) := by
  constructor
  · intro u a b h hb
    have hred : (processLine cfg m line now).1 =
        (stepFailed cfg.span cfg.threshold m a now).1 := by
      unfold processLine
      rw [h]
    rw [hred]
    unfold stepFailed
    by_cases hc : cfg.threshold ≤ (onFailed (getA m a) now cfg.span).length
    · rw [if_pos hc]
      show getA (setA (setA m a (onFailed (getA m a) now cfg.span)) a []) b = getA m b
      rw [getA_setA_ne _ _ _ _ hb, getA_setA_ne _ _ _ _ hb]
    · rw [if_neg hc]
      show getA (setA m a (onFailed (getA m a) now cfg.span)) b = getA m b
      rw [getA_setA_ne _ _ _ _ hb]
  · intro h
    have hred : processLine cfg m line now =
        (match searchAccepted line.data with
         | some (user, ip) =>
           if cfg.notifyOnSuccess then (m, some (Notif.success user ip)) else (m, none)
         | none => (m, none)) := by
      unfold processLine
      rw [h]
    rw [hred]
    cases hA : searchAccepted line.data with
    | none => rfl
    | some pr =>
      obtain ⟨u, ip⟩ := pr
      by_cases hn : cfg.notifyOnSuccess = true
      · simp [hn]
      · simp [hn]

/-- C9 (witness): a failed attempt from `2.2.2.2` leaves the window of
`9.9.9.9` unchanged, and an accepted line leaves the whole map
unchanged. -/
theorem c9_ip_independence_witness :
    getA (processLine cfg0 [("9.9.9.9", [17])]
        "Failed password for b from 2.2.2.2" 0).1 "9.9.9.9"
      = getA [("9.9.9.9", [17])] "9.9.9.9"
    ∧ (processLine cfg0 [("9.9.9.9", [17])]
        "Accepted password for bob from 1.2.3.4" 0).1 = [("9.9.9.9", [17])] := by
  refine ⟨?w1, ?w2⟩
  · exact (c9_ip_independence cfg0 [("9.9.9.9", [17])]
      "Failed password for b from 2.2.2.2" 0).1 "b" "2.2.2.2" "9.9.9.9"
      (by decide) (by decide)
  · exact (c9_ip_independence cfg0 [("9.9.9.9", [17])]
      "Accepted password for bob from 1.2.3.4" 0).2 (by decide)

-- ------------------------------------------------------------------
-- C7: the notifier
-- ------------------------------------------------------------------

/-- C7: with blank transport credentials `send_whatsapp` returns `false`
and performs no POST; otherwise it performs exactly one POST with the
fixed 10-second timeout and returns whether the status was a success
(`r.ok`, status < 400), returning `false` — with no retry — when the
status is an error or the request raised. -/
theorem c7_notifier (token device : Option String) (o : TransportOutcome) :
    ((keyBlank token || keyBlank device) = true →
        send_whatsapp token device o = (false, []))
    ∧ ((keyBlank token || keyBlank device) = false →
        (∀ (st : Nat), o = TransportOutcome.response st →
            send_whatsapp token device o = (decide (st < 400), [10]))
        ∧ (∀ (msg : String), o = TransportOutcome.exception msg →
            send_whatsapp token device o = (false, [10]))) := by
  constructor
  · intro h
    simp [send_whatsapp, h]
  · intro h
    constructor
    · intro st hst
      subst hst
      simp [send_whatsapp, h]
    · intro msg hm
      subst hm
      simp [send_whatsapp, h]

/-- C7 (witness): missing token, delivered 200, failed 500, exception. -/
theorem c7_notifier_witness :
    send_whatsapp none (some "62812") (TransportOutcome.response 200) = (false, [])
    ∧ send_whatsapp (some "tok") (some "62812") (TransportOutcome.response 200) = (true, [10])
    ∧ send_whatsapp (some "tok") (some "62812") (TransportOutcome.response 500) = (false, [10])
    ∧ send_whatsapp (some "tok") (some "62812") (TransportOutcome.exception "unreachable") = (false, [10]) := by
  refine ⟨?w1, ?w2, ?w3, ?w4⟩
  · exact (c7_notifier none (some "62812") (TransportOutcome.response 200)).1 (by decide)
  · exact ((c7_notifier (some "tok") (some "62812") (TransportOutcome.response 200)).2
      (by decide)).1 200 rfl
  · exact ((c7_notifier (some "tok") (some "62812") (TransportOutcome.response 500)).2
      (by decide)).1 500 rfl
  · exact ((c7_notifier (some "tok") (some "62812") (TransportOutcome.exception "unreachable")).2
      (by decide)).2 "unreachable" rfl

-- ------------------------------------------------------------------
-- C8: short-mode truncation
-- ------------------------------------------------------------------

/-- C8: in short mode a prompt longer than 300 characters is sent as its
first 300 characters followed by the `"..."` marker, a prompt within the
bound is sent unmodified, and in full mode every prompt is sent
unmodified; with a configured credential the prompt actually sent is
exactly `geminiPrompt`'s result. -/
theorem c8_prompt_truncation (p : String) (key : Option String) (sh : Bool)
    (outs : Nat → GeminiOutcome) :
    (300 < p.length → geminiPrompt p true = p.take 300 ++ "...")
    ∧ (p.length ≤ 300 → geminiPrompt p true = p)
    ∧ geminiPrompt p false = p
    ∧ (keyBlank key = false →
        (analyze_with_gemini key p sh outs).sentPrompt = some (geminiPrompt p sh)) := by
  refine ⟨?h1, ?h2, rfl, ?h4⟩
  · intro h
    simp [geminiPrompt, h]
  · intro h
    simp [geminiPrompt, Nat.not_lt.mpr h]
  · intro hk
    simp [analyze_with_gemini, hk]

set_option maxRecDepth 8000 in
/-- C8 (witness): a 301-character prompt is truncated, a short prompt is
not, and the sent prompt is reported. -/
theorem c8_prompt_truncation_witness :
    geminiPrompt longPrompt true = longPrompt.take 300 ++ "..."
    ∧ geminiPrompt "short prompt" true = "short prompt"
    ∧ (analyze_with_gemini (some "k") "short prompt" true
        (fun _ => GeminiOutcome.timeout)).sentPrompt
      = some (geminiPrompt "short prompt" true) := by
  refine ⟨?w1, ?w2, ?w3⟩
  · exact (c8_prompt_truncation longPrompt (some "k") true
      (fun _ => GeminiOutcome.timeout)).1 (by decide)
  · exact (c8_prompt_truncation "short prompt" (some "k") true
      (fun _ => GeminiOutcome.timeout)).2.1 (by decide)
  · exact (c8_prompt_truncation "short prompt" (some "k") true
      (fun _ => GeminiOutcome.timeout)).2.2.2 (by decide)
